import Mathlib

/-!
Verification of the versioning/rollback core of the ffaas control plane
(`pkg/api/server.go`): the application/deploy data model, the create-deploy
and rollback handlers, and their interaction with the Store and the Cache.

The handlers `handleCreateDeploy` and `handleCreateRollback` below are direct
translations of the Go handlers in `src/pkg/api/server.go`.  The Store and the
ModCacher are interfaces in the Go code whose implementations are not part of
the visible source, so they are modelled from the spec's contract (section 6),
with explicit fault flags injecting the `StoreError`/`CacheError` outcomes.
Every handler run returns, besides the HTTP response and the new world state,
the list of Store/Cache calls it performed, in order, so that frame conditions
(which collaborators were touched, and in which order) can be stated.
-/

namespace Ffaas

/-- UUIDs are modelled as naturals; `0` plays the role of the Go zero value
`uuid.Nil` (an application that never had a deploy has `ActiveDeployID = 0`). -/
abbrev UUID := Nat

/-- `types.Application`: id, name, environment, derived endpoint and the
pointer to the currently active deploy. -/
structure Application where
  id : UUID
  name : String
  environment : List (String × String)
  endpoint : String
  activeDeployID : UUID
deriving Repr, DecidableEq

/-- `types.Deploy`: an immutable build artifact owned by one application. -/
structure Deploy where
  id : UUID
  applicationID : UUID
  payload : List Nat
  createdAt : Nat
deriving Repr, DecidableEq

/-- Modelled from the spec: `types.NewDeploy` (the `types` package is not under
`src/`).  Constructs a Deploy bound to the application with the given payload
(spec section 3); the freshly generated id and the timestamp are opaque to the
core, so they are passed in as parameters. -/
def NewDeploy (newID : UUID) (createdAt : Nat) (app : Application)
    (payload : List Nat) : Deploy :=
  { id := newID, applicationID := app.id, payload := payload,
    createdAt := createdAt }

/-- Modelled from the spec: the state behind `storage.Store` (the `storage`
package is not under `src/`), a map of applications and a map of deploys. -/
structure StoreState where
  apps : UUID → Option Application
  deploys : UUID → Option Deploy

/-- Modelled from the spec: `Store.GetApplication`, fails (returns `none`,
standing for `NotFoundError`) iff the id is absent. -/
def StoreState.getApplication (s : StoreState) (id : UUID) : Option Application :=
  s.apps id

/-- Modelled from the spec: `Store.GetDeploy`, fails iff the id is absent. -/
def StoreState.getDeploy (s : StoreState) (id : UUID) : Option Deploy :=
  s.deploys id

/-- Modelled from the spec: `Store.CreateDeploy`, fails if the id is already
present; the `fail` flag injects a generic `StoreError`. -/
def StoreState.createDeploy (s : StoreState) (fail : Bool) (d : Deploy) :
    Option StoreState :=
  if fail then none
  else
    match s.deploys d.id with
    | some _ => none
    | none =>
        some { s with deploys := fun k => if k = d.id then some d else s.deploys k }

/-- Modelled from the spec: `Store.UpdateApplication`, a partial update that
only touches `active_deploy_id`; fails if the application is absent; the
`fail` flag injects a generic `StoreError` (in which case nothing changes). -/
def StoreState.updateApplication (s : StoreState) (fail : Bool) (id : UUID)
    (newActive : UUID) : Option StoreState :=
  if fail then none
  else
    match s.apps id with
    | none => none
    | some app =>
        some { s with
          apps := fun k =>
            if k = id then some { app with activeDeployID := newActive }
            else s.apps k }

/-- Modelled from the spec: the state behind `storage.ModCacher`, keyed by
deploy id; only presence of an entry is observable here. -/
structure CacheState where
  hasEntry : UUID → Bool

/-- Modelled from the spec: `Cache.Delete` evicts the entry for a deploy id
(a no-op if absent); the `fail` flag injects a `CacheError`, in which case the
entry survives.  The Go handler ignores the call's outcome either way. -/
def CacheState.delete (c : CacheState) (fail : Bool) (id : UUID) : CacheState :=
  if fail then c
  else { hasEntry := fun k => if k = id then false else c.hasEntry k }

/-- The server's mutable collaborators: the Store and the Cache
(`Server.store`, `Server.cache`). -/
structure World where
  store : StoreState
  cache : CacheState

/-- One observable call to a collaborator, recorded in program order. -/
inductive Event where
  | storeGetApplication (id : UUID)
  | storeGetDeploy (id : UUID)
  | storeCreateDeploy (d : Deploy)
  | storeUpdateApplication (id : UUID) (newActive : UUID)
  | cacheDelete (id : UUID)
deriving Repr, DecidableEq

/-- Whether an event is a Cache eviction call. -/
def Event.isCacheDelete : Event → Bool
  | .cacheDelete _ => true
  | _ => false

/-- The JSON body written by `writeJSON` in the various branches. -/
inductive RespBody where
  | errorBody (tag : String)
  | appBody (a : Application)
  | deployBody (d : Deploy)
  | rollbackBody (deployID : UUID)
deriving Repr, DecidableEq

/-- An HTTP response: status code plus encoded body. -/
structure Response where
  status : Nat
  body : RespBody
deriving Repr, DecidableEq

/-- Injected failures of the fallible collaborator calls a handler makes. -/
structure Faults where
  createDeployFails : Bool
  updateApplicationFails : Bool
  cacheDeleteFails : Bool
deriving Repr, DecidableEq

/-- The run in which every collaborator call succeeds. -/
def noFaults : Faults :=
  { createDeployFails := false, updateApplicationFails := false,
    cacheDeleteFails := false }

/-- A create-deploy request: `appIDRaw = none` models a URL parameter that
fails `uuid.Parse`; `body = none` models `io.ReadAll(r.Body)` failing. -/
structure DeployRequest where
  appIDRaw : Option UUID
  body : Option (List Nat)

/-- A rollback request: `appIDRaw = none` models a URL parameter that fails
`uuid.Parse`; `body = none` models a JSON decode failure of
`CreateRollbackParams`; `body = some tid` carries the target `deploy_id`. -/
structure RollbackRequest where
  appIDRaw : Option UUID
  body : Option UUID

/-- Translation of `handleCreateDeploy` (src/pkg/api/server.go, lines 94-120):
parse the app id (400 on failure), look the application up (404 on failure),
read the body (404 on failure), persist the new deploy (422 on failure), point
the application's `active_deploy_id` at it (422 on failure), return the deploy.
The Cache is never touched. -/
def handleCreateDeploy (w : World) (f : Faults) (newID : UUID) (t : Nat)
    (req : DeployRequest) : Response × World × List Event :=
  match req.appIDRaw with
  | none => ({ status := 400, body := .errorBody "uuid parse error" }, w, [])
  | some appID =>
    match w.store.getApplication appID with
    | none =>
        ({ status := 404, body := .errorBody "application not found" }, w,
          [.storeGetApplication appID])
    | some app =>
      match req.body with
      | none =>
          ({ status := 404, body := .errorBody "read body error" }, w,
            [.storeGetApplication appID])
      | some b =>
        match w.store.createDeploy f.createDeployFails (NewDeploy newID t app b) with
        | none =>
            ({ status := 422, body := .errorBody "create deploy error" }, w,
              [.storeGetApplication appID,
               .storeCreateDeploy (NewDeploy newID t app b)])
        | some st1 =>
          match st1.updateApplication f.updateApplicationFails appID
              (NewDeploy newID t app b).id with
          | none =>
              ({ status := 422, body := .errorBody "update application error" },
                { w with store := st1 },
                [.storeGetApplication appID,
                 .storeCreateDeploy (NewDeploy newID t app b),
                 .storeUpdateApplication appID (NewDeploy newID t app b).id])
          | some st2 =>
              ({ status := 200, body := .deployBody (NewDeploy newID t app b) },
                { w with store := st2 },
                [.storeGetApplication appID,
                 .storeCreateDeploy (NewDeploy newID t app b),
                 .storeUpdateApplication appID (NewDeploy newID t app b).id])

/-- Translation of `handleCreateRollback` (src/pkg/api/server.go, lines
140-172): parse the app id (400 on failure), look the application up (400 on
failure — the Go code uses `StatusBadRequest` here), capture
`currentDeployID := app.ActiveDeployID`, decode the body (400 on failure),
look the target deploy up (404 on failure), update `active_deploy_id` to the
target (400 on failure), evict the cache entry for the previously active
deploy ignoring the outcome, and return the target id.  Note: the Go code
performs no check that `deploy.ApplicationID` matches the application. -/
def handleCreateRollback (w : World) (f : Faults) (req : RollbackRequest) :
    Response × World × List Event :=
  match req.appIDRaw with
  | none => ({ status := 400, body := .errorBody "uuid parse error" }, w, [])
  | some appID =>
    match w.store.getApplication appID with
    | none =>
        ({ status := 400, body := .errorBody "application not found" }, w,
          [.storeGetApplication appID])
    | some app =>
      match req.body with
      | none =>
          ({ status := 400, body := .errorBody "decode request body error" }, w,
            [.storeGetApplication appID])
      | some targetID =>
        match w.store.getDeploy targetID with
        | none =>
            ({ status := 404, body := .errorBody "deploy not found" }, w,
              [.storeGetApplication appID, .storeGetDeploy targetID])
        | some deploy =>
          match w.store.updateApplication f.updateApplicationFails appID deploy.id with
          | none =>
              ({ status := 400, body := .errorBody "update application error" }, w,
                [.storeGetApplication appID, .storeGetDeploy targetID,
                 .storeUpdateApplication appID deploy.id])
          | some st1 =>
              ({ status := 200, body := .rollbackBody deploy.id },
                { store := st1,
                  cache := w.cache.delete f.cacheDeleteFails app.activeDeployID },
                [.storeGetApplication appID, .storeGetDeploy targetID,
                 .storeUpdateApplication appID deploy.id,
                 .cacheDelete app.activeDeployID])

/-- `CreateAppParams` (src/pkg/api/server.go, lines 57-60). -/
structure CreateAppParams where
  name : String
  environment : List (String × String)

/-- The literal error text of `CreateAppParams.validate`. -/
def nameBoundErrMsg : String :=
  "name of the application should be longer than 3 and less than 40 characters"

/-- Translation of `CreateAppParams.validate` (src/pkg/api/server.go, lines
62-67): rejects iff the byte length of the name is below 3 or above 20, with
an error message that speaks of 40 characters.  Go's `len` on a string counts
bytes, hence `String.utf8ByteSize`. -/
def CreateAppParams.validate (p : CreateAppParams) : Option String :=
  if p.name.utf8ByteSize < 3 ∨ p.name.utf8ByteSize > 20 then some nameBoundErrMsg
  else none

/-! Concrete fixtures for witnesses and counterexamples. -/

/-- A demo application, id 1, whose active deploy is deploy 11. -/
def demoApp : Application :=
  { id := 1, name := "demo", environment := [("K", "V")],
    endpoint := "http://wasm/1", activeDeployID := 11 }

/-- An older deploy of application 1. -/
def demoDeploy10 : Deploy :=
  { id := 10, applicationID := 1, payload := [1, 2], createdAt := 5 }

/-- The currently active deploy of application 1. -/
def demoDeploy11 : Deploy :=
  { id := 11, applicationID := 1, payload := [3], createdAt := 6 }

/-- A deploy that belongs to a different application (id 2). -/
def foreignDeploy : Deploy :=
  { id := 20, applicationID := 2, payload := [7], createdAt := 3 }

/-- A world holding application 1 (active deploy 11), its deploys 10 and 11,
the foreign deploy 20 of application 2, and a cache entry for deploy 11. -/
def demoWorld : World :=
  { store :=
      { apps := fun k => if k = 1 then some demoApp else none,
        deploys := fun k =>
          if k = 10 then some demoDeploy10
          else if k = 11 then some demoDeploy11
          else if k = 20 then some foreignDeploy
          else none },
    cache := { hasEntry := fun k => k == 11 } }

/-! The claims. -/

/-- C1: the claim requires a rollback whose target deploy belongs to a
different application to fail with a `ValidationError` and to leave
`active_deploy_id` unchanged.  The code omits the ownership check the spec
calls mandatory: rolling application 1 back to deploy 20, which belongs to
application 2, answers HTTP 200 and repoints application 1's
`active_deploy_id` to 20, and the store update is performed. -/
theorem C1_rollback_ownership_check_missing :
    foreignDeploy.applicationID ≠ demoApp.id ∧
    (handleCreateRollback demoWorld noFaults ⟨some 1, some 20⟩).1.status = 200 ∧
    ((handleCreateRollback demoWorld noFaults ⟨some 1, some 20⟩).2.1.store.getApplication 1).map
      Application.activeDeployID = some 20 ∧
    Event.storeUpdateApplication 1 20 ∈
      (handleCreateRollback demoWorld noFaults ⟨some 1, some 20⟩).2.2 := by
  decide

/-- C7: the claim requires a rollback naming an absent application to fail
with the not-found error class.  The code answers HTTP 400 (bad request),
not 404, when `GetApplication` fails: application 5 is absent from the store,
yet the rollback response carries status 400. -/
theorem C7_rollback_unknown_app_bad_request :
    demoWorld.store.getApplication 5 = none ∧
    (handleCreateRollback demoWorld noFaults ⟨some 5, some 10⟩).1.status = 400 ∧
    (handleCreateRollback demoWorld noFaults ⟨some 5, some 10⟩).1.status ≠ 404 := by
  decide

/-- C4: a rollback whose target deploy id names no existing deploy fails with
404, leaves the whole world (store pointer and cache) unchanged, and performs
neither the store update nor the cache eviction: the call trace consists of
the two lookups only. -/
theorem C4_rollback_unknown_target (w : World) (f : Faults) (a tid : UUID)
    (A : Application)
    (hA : w.store.getApplication a = some A)
    (hT : w.store.getDeploy tid = none) :
    (handleCreateRollback w f ⟨some a, some tid⟩).1.status = 404 ∧
    (handleCreateRollback w f ⟨some a, some tid⟩).2.1 = w ∧
    (handleCreateRollback w f ⟨some a, some tid⟩).2.2 =
      [.storeGetApplication a, .storeGetDeploy tid] := by
  simp [handleCreateRollback, hA, hT]

/-- Witness for C4: rolling application 1 back to the absent deploy 99. -/
theorem C4_rollback_unknown_target_witness :
    (handleCreateRollback demoWorld noFaults ⟨some 1, some 99⟩).1.status = 404 ∧
    (handleCreateRollback demoWorld noFaults ⟨some 1, some 99⟩).2.1 = demoWorld ∧
    (handleCreateRollback demoWorld noFaults ⟨some 1, some 99⟩).2.2 =
      [.storeGetApplication 1, .storeGetDeploy 99] :=
  C4_rollback_unknown_target demoWorld noFaults 1 99 demoApp (by decide) (by decide)

/-- C9: whenever the store pointer update succeeds, the rollback answers
HTTP 200 carrying the target deploy id — for every setting of the cache
fault flag, so a failing cache `Delete` is never propagated to the caller. -/
theorem C9_rollback_cache_failure_not_propagated (w : World) (f : Faults)
    (a tid : UUID) (A : Application) (D : Deploy)
    (hA : w.store.getApplication a = some A)
    (hD : w.store.getDeploy tid = some D)
    (hupd : f.updateApplicationFails = false) :
    (handleCreateRollback w f ⟨some a, some tid⟩).1 =
      ({ status := 200, body := .rollbackBody D.id } : Response) := by
  simp [handleCreateRollback, hA, hD, StoreState.updateApplication, hupd,
    StoreState.getApplication] at *
  simp [hA]

/-- Witness for C9: the cache `Delete` call fails, yet the rollback of
application 1 to deploy 10 answers 200 with deploy id 10. -/
theorem C9_rollback_cache_failure_not_propagated_witness :
    (handleCreateRollback demoWorld
        { createDeployFails := false, updateApplicationFails := false,
          cacheDeleteFails := true } ⟨some 1, some 10⟩).1 =
      ({ status := 200, body := .rollbackBody demoDeploy10.id } : Response) :=
  C9_rollback_cache_failure_not_propagated demoWorld
    { createDeployFails := false, updateApplicationFails := false,
      cacheDeleteFails := true } 1 10 demoApp demoDeploy10
    (by decide) (by decide) (by decide)

/-- C10: in create-deploy, when the application lookup has succeeded but
reading the request body fails, the handler answers with the not-found
status (404 — the status the Go code uses on this path), the world is
unchanged (no deploy persisted, `active_deploy_id` untouched), and the only
collaborator call made was the application lookup. -/
theorem C10_create_deploy_body_read_failure (w : World) (f : Faults)
    (newID : UUID) (t : Nat) (a : UUID) (A : Application)
    (hA : w.store.getApplication a = some A) :
    (handleCreateDeploy w f newID t ⟨some a, none⟩).1.status = 404 ∧
    (handleCreateDeploy w f newID t ⟨some a, none⟩).2.1 = w ∧
    (handleCreateDeploy w f newID t ⟨some a, none⟩).2.2 =
      [.storeGetApplication a] := by
  simp [handleCreateDeploy, hA]

/-- Witness for C10: a create-deploy on application 1 whose body read fails. -/
theorem C10_create_deploy_body_read_failure_witness :
    (handleCreateDeploy demoWorld noFaults 42 7 ⟨some 1, none⟩).1.status = 404 ∧
    (handleCreateDeploy demoWorld noFaults 42 7 ⟨some 1, none⟩).2.1 = demoWorld ∧
    (handleCreateDeploy demoWorld noFaults 42 7 ⟨some 1, none⟩).2.2 =
      [.storeGetApplication 1] :=
  C10_create_deploy_body_read_failure demoWorld noFaults 42 7 1 demoApp (by decide)

/-- C2: a successful rollback of application `a` from active deploy `d2` to
existing deploy `d1` answers 200 with `d1`, repoints the application's
`active_deploy_id` to `d1` through the store, and evicts the cache entry of
the previously active `d2` (captured before the pointer update); the call
trace shows the eviction happening only after the store update. -/
theorem C2_rollback_success (w : World) (f : Faults) (a d1 d2 : UUID)
    (A : Application) (D1 D2 : Deploy)
    (hA : w.store.getApplication a = some A)
    (hD1 : w.store.getDeploy d1 = some D1) (hD1id : D1.id = d1)
    (hD2 : w.store.getDeploy d2 = some D2) (hD2id : D2.id = d2)
    (hActive : A.activeDeployID = d2)
    (hupd : f.updateApplicationFails = false)
    (hcache : f.cacheDeleteFails = false) :
    (handleCreateRollback w f ⟨some a, some d1⟩).1 =
      ({ status := 200, body := .rollbackBody d1 } : Response) ∧
    (handleCreateRollback w f ⟨some a, some d1⟩).2.1.store.getApplication a =
      some { A with activeDeployID := d1 } ∧
    (handleCreateRollback w f ⟨some a, some d1⟩).2.1.cache.hasEntry d2 = false ∧
    (handleCreateRollback w f ⟨some a, some d1⟩).2.2 =
      [.storeGetApplication a, .storeGetDeploy d1,
       .storeUpdateApplication a d1, .cacheDelete d2] := by
  have hA' : w.store.apps a = some A := hA
  simp [handleCreateRollback, hA, hD1, hD1id, hActive, hupd, hcache,
    StoreState.updateApplication, StoreState.getApplication, CacheState.delete, hA']

/-- Witness for C2: application 1, active deploy 11, rolled back to 10. -/
theorem C2_rollback_success_witness :
    (handleCreateRollback demoWorld noFaults ⟨some 1, some 10⟩).1 =
      ({ status := 200, body := .rollbackBody 10 } : Response) ∧
    (handleCreateRollback demoWorld noFaults ⟨some 1, some 10⟩).2.1.store.getApplication 1 =
      some { demoApp with activeDeployID := 10 } ∧
    (handleCreateRollback demoWorld noFaults ⟨some 1, some 10⟩).2.1.cache.hasEntry 11 = false ∧
    (handleCreateRollback demoWorld noFaults ⟨some 1, some 10⟩).2.2 =
      [.storeGetApplication 1, .storeGetDeploy 10,
       .storeUpdateApplication 1 10, .cacheDelete 11] :=
  C2_rollback_success demoWorld noFaults 1 10 11 demoApp demoDeploy10 demoDeploy11
    (by decide) (by decide) (by decide) (by decide) (by decide) (by decide)
    (by decide) (by decide)

/-- C3: whenever create-deploy succeeds (status 200), its response body is a
deploy `d` and the application's `active_deploy_id` in the resulting store
equals `d.id`: the new deploy was persisted and made active in the same
operation. -/
theorem C3_create_deploy_activates (w : World) (f : Faults) (newID : UUID)
    (t : Nat) (req : DeployRequest) (a : UUID)
    (hreq : req.appIDRaw = some a)
    (h200 : (handleCreateDeploy w f newID t req).1.status = 200) :
    ∃ d : Deploy,
      (handleCreateDeploy w f newID t req).1.body = RespBody.deployBody d ∧
      ((handleCreateDeploy w f newID t req).2.1.store.getApplication a).map
        Application.activeDeployID = some d.id := by
  simp only [handleCreateDeploy, hreq] at h200 ⊢
  cases hga : w.store.getApplication a with
  | none => simp [hga] at h200
  | some app =>
    simp only [hga] at h200 ⊢
    cases hb : req.body with
    | none => simp [hb] at h200
    | some b =>
      simp only [hb] at h200 ⊢
      cases hcd : w.store.createDeploy f.createDeployFails (NewDeploy newID t app b) with
      | none => simp [hcd] at h200
      | some st1 =>
        simp only [hcd] at h200 ⊢
        cases hup : st1.updateApplication f.updateApplicationFails a
            (NewDeploy newID t app b).id with
        | none => simp [hup] at h200
        | some st2 =>
          simp only [hup]
          refine ⟨NewDeploy newID t app b, rfl, ?_⟩
          unfold StoreState.updateApplication at hup
          cases hf : f.updateApplicationFails with
          | true => rw [hf] at hup; exact absurd hup (by simp)
          | false =>
            rw [hf] at hup
            simp only [Bool.false_eq_true, if_false] at hup
            cases hap : st1.apps a with
            | none => rw [hap] at hup; exact absurd hup (by simp)
            | some app2 =>
              rw [hap] at hup
              simp only [Option.some.injEq] at hup
              subst hup
              simp [StoreState.getApplication]

/-- Witness for C3: a successful create-deploy on application 1 with fresh
deploy id 42. -/
theorem C3_create_deploy_activates_witness :
    ∃ d : Deploy,
      (handleCreateDeploy demoWorld noFaults 42 7 ⟨some 1, some [9]⟩).1.body =
        RespBody.deployBody d ∧
      ((handleCreateDeploy demoWorld noFaults 42 7 ⟨some 1, some [9]⟩).2.1.store.getApplication 1).map
        Application.activeDeployID = some d.id :=
  C3_create_deploy_activates demoWorld noFaults 42 7 ⟨some 1, some [9]⟩ 1
    (by decide) (by decide)

/-- C5: in create-deploy, when persisting the deploy succeeds but the
subsequent `active_deploy_id` update fails, the handler returns an error
(422), the new deploy remains persisted in the store, and the application
record — in particular its `active_deploy_id` — keeps its prior value. -/
theorem C5_create_deploy_update_failure (w : World) (f : Faults)
    (newID : UUID) (t : Nat) (a : UUID) (A : Application) (b : List Nat)
    (hA : w.store.getApplication a = some A)
    (hfresh : w.store.getDeploy newID = none)
    (hcd : f.createDeployFails = false)
    (hupd : f.updateApplicationFails = true) :
    (handleCreateDeploy w f newID t ⟨some a, some b⟩).1.status = 422 ∧
    (handleCreateDeploy w f newID t ⟨some a, some b⟩).2.1.store.getDeploy newID =
      some (NewDeploy newID t A b) ∧
    (handleCreateDeploy w f newID t ⟨some a, some b⟩).2.1.store.getApplication a =
      some A := by
  have hA' : w.store.apps a = some A := hA
  have hfresh' : w.store.deploys newID = none := hfresh
  simp [handleCreateDeploy, hA, hA', hcd, hupd, StoreState.createDeploy,
    StoreState.updateApplication, StoreState.getDeploy, StoreState.getApplication,
    NewDeploy, hfresh']

/-- Witness for C5: the pointer update fails after deploy 42 is persisted on
application 1; the handler answers 422, deploy 42 is in the store, and
application 1 still has its prior record (active deploy 11). -/
theorem C5_create_deploy_update_failure_witness :
    (handleCreateDeploy demoWorld
        { createDeployFails := false, updateApplicationFails := true,
          cacheDeleteFails := false } 42 7 ⟨some 1, some [9]⟩).1.status = 422 ∧
    (handleCreateDeploy demoWorld
        { createDeployFails := false, updateApplicationFails := true,
          cacheDeleteFails := false } 42 7 ⟨some 1, some [9]⟩).2.1.store.getDeploy 42 =
      some (NewDeploy 42 7 demoApp [9]) ∧
    (handleCreateDeploy demoWorld
        { createDeployFails := false, updateApplicationFails := true,
          cacheDeleteFails := false } 42 7 ⟨some 1, some [9]⟩).2.1.store.getApplication 1 =
      some demoApp :=
  C5_create_deploy_update_failure demoWorld
    { createDeployFails := false, updateApplicationFails := true,
      cacheDeleteFails := false } 42 7 1 demoApp [9]
    (by decide) (by decide) (by decide) (by decide)

/-- C6: name validation rejects exactly the names whose byte length lies
outside the bound [3, 20] enforced by the check, always with the one literal
message; that message speaks of the digit pair "40" and nowhere of "20", so
the bound the check enforces (20) is not the number the message states (40). -/
theorem C6_validate_bound_message_mismatch :
    (∀ p : CreateAppParams,
      (p.validate).isSome ↔ (p.name.utf8ByteSize < 3 ∨ 20 < p.name.utf8ByteSize)) ∧
    (∀ p : CreateAppParams,
      p.validate = none ∨ p.validate = some nameBoundErrMsg) ∧
    (nameBoundErrMsg.toList.zip nameBoundErrMsg.toList.tail).contains ('4', '0') = true ∧
    (nameBoundErrMsg.toList.zip nameBoundErrMsg.toList.tail).contains ('2', '0') = false := by
  refine ⟨?_, ?_, by decide, by decide⟩
  · intro p
    unfold CreateAppParams.validate
    split <;> simp_all
  · intro p
    unfold CreateAppParams.validate
    split <;> simp

/-- C8: the create-deploy handler never interacts with the cache on any
path: for every world, fault setting and request, the cache state is
untouched and the call trace contains no cache call. -/
theorem C8_create_deploy_no_cache_interaction (w : World) (f : Faults)
    (newID : UUID) (t : Nat) (req : DeployRequest) :
    (handleCreateDeploy w f newID t req).2.1.cache = w.cache ∧
    ((handleCreateDeploy w f newID t req).2.2.any Event.isCacheDelete) = false := by
  unfold handleCreateDeploy
  cases req.appIDRaw with
  | none => exact ⟨rfl, rfl⟩
  | some appID =>
    dsimp only
    cases w.store.getApplication appID with
    | none => exact ⟨rfl, rfl⟩
    | some app =>
      dsimp only
      cases req.body with
      | none => exact ⟨rfl, rfl⟩
      | some b =>
        dsimp only
        cases w.store.createDeploy f.createDeployFails (NewDeploy newID t app b) with
        | none => exact ⟨rfl, rfl⟩
        | some st1 =>
          dsimp only
          cases st1.updateApplication f.updateApplicationFails appID
              (NewDeploy newID t app b).id with
          | none => exact ⟨rfl, rfl⟩
          | some st2 => exact ⟨rfl, rfl⟩

end Ffaas
